import Mathlib

/-!
# Verification of the signal computation engine (`core/signals.py`)

Shallow embedding of the pure scoring functions of the repository's
`core/signals.py` over exact rationals (`ℚ` stands in for Python/numpy
floats; every constant appearing in the code is exactly representable).

One irrational operation occurs in the source: `np.std(ddof=1)`, the
square root of the Bessel-corrected sample variance.  `ℚ` has no square
root, and the claims under study never depend on the numeric value of the
root itself, so the embedding abstracts the square-root map as an explicit
function parameter `sq : ℚ → ℚ` applied to the sample variance
(`sampleVar` below).  Every theorem quantifies over an arbitrary `sq`,
hence holds in particular for the true square root used by numpy.

Python dicts are embedded as association lists (`List (String × ℚ)`) with
`List.lookup` playing the role of `dict.get` / `dict[...]`; `dict[...]`
on a possibly missing key makes the embedded function return an `Option`.
-/

/-- Python slice `l[-n:]`: the last `n` elements of `l` (all of `l` when it
is shorter than `n`). -/
def lastN (n : Nat) (l : List α) : List α := l.drop (l.length - n)

/-- `np.mean` on a rational list (only ever applied to non-empty lists by
the engine; on `[]` it degenerates to `0/0 = 0` in `ℚ`). -/
def listMean (l : List ℚ) : ℚ := l.sum / l.length

/-- The square of `np.std(ddof=1)`: Bessel-corrected sample variance,
`Σ (x - mean)² / (n - 1)`. -/
def sampleVar (l : List ℚ) : ℚ :=
  ((l.map fun x => (x - listMean l) ^ 2).sum) / ((l.length : ℚ) - 1)

/-- `np.clip x lo hi`. -/
def npClip (x lo hi : ℚ) : ℚ := min hi (max lo x)

/-- The source's local `std = arr.std(ddof=1) if arr.size > 1 else 1.0`,
with the square root abstracted as `sq`. -/
def effective_std (sq : ℚ → ℚ) (arr : List ℚ) : ℚ :=
  if 1 < arr.length then sq (sampleVar arr) else 1

/-- `compute_zscore(series)`: windows to the last 30 elements, returns 0.0
on an empty window, otherwise `(arr[-1] - mean) / (std if std != 0 else 1.0)`
with `std` as in `effective_std`.  (`arr[-1]` is embedded as `getLastD 0`;
the default is unreachable behind the emptiness guard.) -/
def compute_zscore (sq : ℚ → ℚ) (series : List ℚ) : ℚ :=
  if lastN 30 series = [] then 0
  else
    ((lastN 30 series).getLastD 0 - listMean (lastN 30 series)) /
      (if effective_std sq (lastN 30 series) ≠ 0
       then effective_std sq (lastN 30 series) else 1)

/-- `classify_regime(zscore, low=-0.8, high=0.8)`.  The Python defaults are
supplied explicitly at every call site of the embedding. -/
def classify_regime (zscore low high : ℚ) : String :=
  if high ≤ zscore then "high"
  else if zscore ≤ low then "low"
  else "normal"

/-- Dataclass `VolumeSignal`. -/
structure VolumeSignal where
  zscore : ℚ
  regime : String
  baseline : ℚ
  latest : ℚ
deriving DecidableEq, Repr

/-- Dataclass `FlowSignal`. -/
structure FlowSignal where
  net_flow : ℚ
  zscore : ℚ
  regime : String
deriving DecidableEq, Repr

/-- Dataclass `OIMetrics` from `core/models.py` (field order preserved;
`timestamp` embedded as an optional epoch integer).  `funding` and
`ls_ratio` are `Option ℚ` because `compute_oi_leverage_score` guards them
with `is not None` / truthiness checks, so `None` is a reachable value. -/
structure OIMetrics where
  timestamp : Option ℤ
  exchange : String
  oi : ℚ
  funding : Option ℚ
  ls_ratio : Option ℚ
  volume : Option ℚ
deriving DecidableEq, Repr

/-- Dataclass `ManipulationHint` from `core/models.py`. -/
structure ManipulationHint where
  timestamp : Option ℤ
  depth_imbalance : ℚ
  rapid_wall_change : Bool
  risk_score : ℚ
  note : String
deriving DecidableEq, Repr

/-- `compute_volume_signal(volumes)`. -/
def compute_volume_signal (sq : ℚ → ℚ) (volumes : List ℚ) : VolumeSignal :=
  match volumes.getLast? with
  | none => ⟨0, "normal", 0, 0⟩
  | some last =>
      ⟨compute_zscore sq volumes,
       classify_regime (compute_zscore sq volumes) (-0.8) 0.8,
       if 24 ≤ volumes.length then listMean (lastN 24 volumes) else listMean volumes,
       last⟩

/-- `compute_flow_signal(net_flows)`. -/
def compute_flow_signal (sq : ℚ → ℚ) (net_flows : List ℚ) : FlowSignal :=
  match net_flows.getLast? with
  | none => ⟨0, 0, "normal"⟩
  | some last =>
      ⟨last,
       compute_zscore sq net_flows,
       classify_regime (compute_zscore sq net_flows) (-0.8) 0.8⟩

/-- The source's local `funding_bias = latest.funding * 100 if latest.funding
is not None else 0.0`. -/
def funding_bias (latest : OIMetrics) : ℚ :=
  match latest.funding with
  | some f => f * 100
  | none => 0

/-- The source's local `ls_skew = (latest.ls_ratio - 1) * 100 if
latest.ls_ratio else 0.0` (Python truthiness: both `None` and `0` are
falsy). -/
def ls_skew (latest : OIMetrics) : ℚ :=
  match latest.ls_ratio with
  | some r => if r = 0 then 0 else (r - 1) * 100
  | none => 0

/-- `compute_oi_leverage_score(metrics)`: `values[-1]` is `getLast?`,
`values[-2]` (guarded by `len(values) > 1`) is `values.dropLast.getLast?`,
and `if prev.oi` is the truthiness check `prev.oi ≠ 0`. -/
def compute_oi_leverage_score (metrics : List OIMetrics) : ℚ :=
  match metrics.getLast? with
  | none => 50
  | some latest =>
      npClip
        (50 +
          0.2 * (match metrics.dropLast.getLast? with
                 | none => 0
                 | some prev =>
                     if prev.oi = 0 then 0
                     else ((latest.oi - prev.oi) / prev.oi) * 100) +
          0.3 * funding_bias latest + 0.1 * ls_skew latest)
        0 100

/-- `compute_manipulation_hint(order_book_stats, volume_spike)`.  The stats
dict is an association list; `order_book_stats.get("depth_imbalance", 0.0)`
is `lookup` with default 0. -/
def compute_manipulation_hint (order_book_stats : List (String × ℚ))
    (volume_spike : Bool) : ManipulationHint :=
  ⟨none,
   (order_book_stats.lookup "depth_imbalance").getD 0,
   decide (0.5 < |(order_book_stats.lookup "depth_imbalance").getD 0|),
   npClip (0.5 * |(order_book_stats.lookup "depth_imbalance").getD 0| +
      (if volume_spike then 0.5 else 0)) 0 1,
   if decide (0.5 < |(order_book_stats.lookup "depth_imbalance").getD 0|) && volume_spike
   then "Depth skew + spike"
   else if decide (0.5 < |(order_book_stats.lookup "depth_imbalance").getD 0|)
   then "Skewed depth"
   else "Calm"⟩

/-- `compute_regulatory_score(events)`: each event dict contributes
`e.get(key, 0.0)` to the respective mean. -/
def compute_regulatory_score (events : List (List (String × ℚ))) : ℚ :=
  if events = [] then 25
  else
    npClip
      (50 +
        (listMean (events.map fun e => (e.lookup "regulatory_support").getD 0) -
         listMean (events.map fun e => (e.lookup "regulatory_threat").getD 0)) * 50)
      0 100

/-- The default weight dict of `aggregate_scores`. -/
def default_weights : List (String × ℚ) :=
  [("flow", 0.3), ("oi", 0.25), ("volume", 0.2),
   ("manipulation", 0.15), ("regulatory", 0.1)]

/-- `aggregate_scores(flow, oi, volume, manipulation, regulatory, weights=None)`.
`weights = weights or {default...}` replaces both `None` and an empty (falsy)
dict by the defaults.  The subsequent `weights["flow"]` subscripts raise
`KeyError` on a missing key, embedded as a `none` result. -/
def aggregate_scores (flow_score oi_score volume_score manipulation_score
    regulatory_score : ℚ) (weights : Option (List (String × ℚ))) : Option ℚ :=
  match (match weights with
         | none => default_weights
         | some ws => if ws = [] then default_weights else ws) with
  | w =>
    match w.lookup "flow", w.lookup "oi", w.lookup "volume",
          w.lookup "manipulation", w.lookup "regulatory" with
    | some wf, some wo, some wv, some wm, some wr =>
        some (npClip
          (flow_score * wf + oi_score * wo + volume_score * wv +
            (100 - manipulation_score) * wm + regulatory_score * wr)
          0 100)
    | _, _, _, _, _ => none

/-- A Python runtime value flowing into a numeric series: either a float or
a non-numeric value (a string suffices to exercise every type-violation
path). -/
inductive PyVal where
  | num (q : ℚ)
  | str (s : String)
deriving DecidableEq, Repr

/-- The two exception classes relevant to the type-violation contract:
`TypeError`, which numpy raises when reducing a non-numeric array, and the
`InvalidInputError` the specification prescribes.  No `InvalidInputError`
class is defined anywhere in the repository. -/
inductive PyError where
  | typeError
  | invalidInputError
deriving DecidableEq, Repr

/-- Truthiness of "this value is numeric". -/
def PyVal.isNum : PyVal → Bool
  | .num _ => true
  | .str _ => false

/-- Extract the numeric payload, if any. -/
def PyVal.numVal : PyVal → Option ℚ
  | .num q => some q
  | .str _ => none

/-- Dynamic-typing model of `compute_zscore` on a series that may contain
non-numeric values.  `np.array` on a list containing a string produces a
string-dtype array, whose `mean()` raises `TypeError`; the empty-window
early return fires before any arithmetic.  The source installs no handler
and defines no `InvalidInputError`, so the `TypeError` propagates. -/
def compute_zscore_dyn (sq : ℚ → ℚ) (series : List PyVal) : Except PyError ℚ :=
  if lastN 30 series = [] then .ok 0
  else if (lastN 30 series).all PyVal.isNum then
    .ok (compute_zscore sq ((lastN 30 series).filterMap PyVal.numVal))
  else .error .typeError

/-- Windowing is idempotent: taking the last `n` of the last `n` changes
nothing. -/
theorem lastN_idem (n : Nat) (l : List α) : lastN n (lastN n l) = lastN n l := by
  unfold lastN
  rw [List.length_drop, Nat.sub_eq_zero_of_le (by omega), List.drop_zero]

/-- Evaluation of `np.clip` when the value already lies in the band. -/
theorem npClip_eq_of (x lo hi : ℚ) (h1 : lo ≤ x) (h2 : x ≤ hi) :
    npClip x lo hi = x := by
  unfold npClip
  rw [max_eq_right h1, min_eq_right h2]

/-- C1: with no weights argument, `aggregate_scores` blends the five
sub-scores with the default weights 0.30/0.25/0.20/0.15/0.10, inverting the
manipulation sub-score as `100 - manipulation_score`, and clamps to
[0, 100]; in particular `aggregate_scores 60 55 50 20 40` is `57.75`. -/
theorem aggregate_scores_default_weights (f o v m r : ℚ) :
    aggregate_scores f o v m r none
      = some (npClip (f * 0.3 + o * 0.25 + v * 0.2 + (100 - m) * 0.15 + r * 0.1) 0 100)
    ∧ aggregate_scores 60 55 50 20 40 none = some 57.75 := by
  refine ⟨rfl, ?_⟩
  have h2 : aggregate_scores 60 55 50 20 40 none
      = some (npClip ((60 : ℚ) * 0.3 + 55 * 0.25 + 50 * 0.2 + (100 - 20) * 0.15 + 40 * 0.1)
          0 100) := rfl
  have hx : (60 : ℚ) * 0.3 + 55 * 0.25 + 50 * 0.2 + (100 - 20) * 0.15 + 40 * 0.1
      = 57.75 := by norm_num
  rw [h2, hx, npClip_eq_of 57.75 0 100 (by norm_num) (by norm_num)]

/-- C2: `compute_zscore` depends only on the last 30 elements; it returns 0
on the empty series and on every singleton series; a one-element window also
yields 0 (standard deviation is defined as 1 there); and on a window of at
least two elements it returns `(last - mean) / std`, where `std` is the
square root (`sq`) of the Bessel-corrected sample variance, replaced by 1
when that standard deviation is exactly 0. -/
theorem compute_zscore_spec (sq : ℚ → ℚ) (s : List ℚ) :
    compute_zscore sq s = compute_zscore sq (lastN 30 s)
    ∧ compute_zscore sq [] = 0
    ∧ (∀ x : ℚ, compute_zscore sq [x] = 0)
    ∧ ((lastN 30 s).length = 1 → compute_zscore sq s = 0)
    ∧ (2 ≤ (lastN 30 s).length →
        compute_zscore sq s =
          ((lastN 30 s).getLastD 0 - listMean (lastN 30 s)) /
            (if sq (sampleVar (lastN 30 s)) = 0 then 1
             else sq (sampleVar (lastN 30 s)))) := by
  have hwin : compute_zscore sq s = compute_zscore sq (lastN 30 s) := by
    simp only [compute_zscore, lastN_idem]
  have hsingle : ∀ x : ℚ, compute_zscore sq [x] = 0 := by
    intro x
    simp [compute_zscore, lastN, listMean, effective_std]
  refine ⟨hwin, rfl, hsingle, ?_, ?_⟩
  · intro h
    obtain ⟨a, ha⟩ := List.length_eq_one.mp h
    rw [hwin, ha]
    exact hsingle a
  · intro h
    have hne : lastN 30 s ≠ [] := by
      intro he
      rw [he] at h
      simp at h
    unfold compute_zscore effective_std
    rw [if_neg hne, if_pos (by omega : 1 < (lastN 30 s).length)]
    by_cases hz : sq (sampleVar (lastN 30 s)) = 0
    · simp [hz]
    · simp [hz]

/-- Witness for C2 at concrete inputs: the singleton series `[5]` (window
length 1) gives 0, and `[1, 2, 3]` (window length 3 ≥ 2) matches the
`(last - mean) / std` formula. -/
theorem compute_zscore_spec_witness :
    compute_zscore (fun q => q) [(5 : ℚ)] = 0
    ∧ compute_zscore (fun q => q) [(1 : ℚ), 2, 3] =
        ((lastN 30 [(1 : ℚ), 2, 3]).getLastD 0 - listMean (lastN 30 [(1 : ℚ), 2, 3])) /
          (if (fun q => q) (sampleVar (lastN 30 [(1 : ℚ), 2, 3])) = 0 then 1
           else (fun q => q) (sampleVar (lastN 30 [(1 : ℚ), 2, 3]))) :=
  ⟨(compute_zscore_spec (fun q => q) [(5 : ℚ)]).2.2.2.1 (by decide),
   (compute_zscore_spec (fun q => q) [(1 : ℚ), 2, 3]).2.2.2.2 (by decide)⟩

/-- C3: on empty input every signal function returns its documented neutral
default: `VolumeSignal(0, "normal", 0, 0)`, `FlowSignal(0, 0, "normal")`,
`50.0` for the OI/leverage score, `25.0` for the regulatory score. -/
theorem empty_input_neutral_defaults (sq : ℚ → ℚ) :
    compute_volume_signal sq [] = ⟨0, "normal", 0, 0⟩
    ∧ compute_flow_signal sq [] = ⟨0, 0, "normal"⟩
    ∧ compute_oi_leverage_score [] = 50
    ∧ compute_regulatory_score [] = 25 :=
  ⟨rfl, rfl, rfl, rfl⟩

/-- C5: `classify_regime` honours its guards in order — `high ≤ z` gives
"high", otherwise `z ≤ low` gives "low", otherwise "normal" — it is total
(always one of the three strings), and a boundary value (`z = high` or
`z = low`) never yields "normal". -/
theorem classify_regime_total_inclusive (z low high : ℚ) :
    (high ≤ z → classify_regime z low high = "high")
    ∧ (z < high → z ≤ low → classify_regime z low high = "low")
    ∧ (low < z → z < high → classify_regime z low high = "normal")
    ∧ (classify_regime z low high = "low" ∨ classify_regime z low high = "normal"
        ∨ classify_regime z low high = "high")
    ∧ (z = high ∨ z = low → classify_regime z low high ≠ "normal") := by
  refine ⟨?_, ?_, ?_, ?_, ?_⟩ <;> unfold classify_regime
  · intro h
    rw [if_pos h]
  · intro h1 h2
    rw [if_neg (not_le.mpr h1), if_pos h2]
  · intro h1 h2
    rw [if_neg (not_le.mpr h2), if_neg (not_le.mpr h1)]
  · split_ifs <;> simp
  · rintro (h | h) <;> split_ifs with h1 h2 <;> simp_all

/-- Witness for C5 at the default thresholds ±0.8: the upper boundary gives
"high", the lower boundary gives "low", 0 gives "normal", and the boundary
value is not "normal". -/
theorem classify_regime_total_inclusive_witness :
    classify_regime 0.8 (-0.8) 0.8 = "high"
    ∧ classify_regime (-0.8) (-0.8) 0.8 = "low"
    ∧ classify_regime 0 (-0.8) 0.8 = "normal"
    ∧ classify_regime (-0.8) (-0.8) 0.8 ≠ "normal" :=
  ⟨(classify_regime_total_inclusive 0.8 (-0.8) 0.8).1 (by norm_num),
   (classify_regime_total_inclusive (-0.8) (-0.8) 0.8).2.1 (by norm_num) (by norm_num),
   (classify_regime_total_inclusive 0 (-0.8) 0.8).2.2.1 (by norm_num) (by norm_num),
   (classify_regime_total_inclusive (-0.8) (-0.8) 0.8).2.2.2.2 (Or.inr rfl)⟩

/-- C6: on any input with at least two points, `compute_oi_leverage_score`
is `clamp(50 + 0.2*oi_change_pct + 0.3*funding_bias + 0.1*ls_skew, 0, 100)`
with `oi_change_pct = ((latest.oi - prev.oi)/prev.oi)*100` guarded by
`prev.oi ≠ 0`; a single point contributes no OI change; an absent funding
gives bias 0 and an absent or zero `ls_ratio` gives skew 0; and the
two-point worked example scores 56.6. -/
theorem compute_oi_leverage_score_formula :
    (∀ (pre : List OIMetrics) (prev latest : OIMetrics),
      compute_oi_leverage_score (pre ++ [prev, latest]) =
        npClip
          (50 + 0.2 * (if prev.oi = 0 then 0 else ((latest.oi - prev.oi) / prev.oi) * 100)
            + 0.3 * funding_bias latest + 0.1 * ls_skew latest) 0 100)
    ∧ (∀ latest : OIMetrics,
        compute_oi_leverage_score [latest]
          = npClip (50 + 0.3 * funding_bias latest + 0.1 * ls_skew latest) 0 100)
    ∧ (∀ (t : Option ℤ) (e : String) (x : ℚ) (lr vol : Option ℚ),
        funding_bias ⟨t, e, x, none, lr, vol⟩ = 0)
    ∧ (∀ (t : Option ℤ) (e : String) (x : ℚ) (fu vol : Option ℚ),
        ls_skew ⟨t, e, x, fu, none, vol⟩ = 0 ∧ ls_skew ⟨t, e, x, fu, some 0, vol⟩ = 0)
    ∧ compute_oi_leverage_score
        [⟨none, "binance", 1000, some 0.01, some 1.1, some 2000⟩,
         ⟨none, "binance", 1200, some 0.02, some 1.2, some 2500⟩] = 56.6 := by
  refine ⟨?_, ?_, fun t e x lr vol => rfl, ?_, ?_⟩
  · intro pre prev latest
    have hcat : pre ++ [prev, latest] = (pre ++ [prev]) ++ [latest] := by simp
    have h1 : (pre ++ [prev, latest]).getLast? = some latest := by
      rw [hcat, List.getLast?_concat]
    have h2 : (pre ++ [prev, latest]).dropLast.getLast? = some prev := by
      rw [hcat, List.dropLast_concat, List.getLast?_concat]
    simp [compute_oi_leverage_score, h1, h2]
  · intro latest
    have h1 : compute_oi_leverage_score [latest]
        = npClip (50 + 0.2 * 0 + 0.3 * funding_bias latest + 0.1 * ls_skew latest)
          0 100 := rfl
    rw [h1]
    congr 1
    ring
  · intro t e x fu vol
    constructor
    · rfl
    · simp [ls_skew]
  · have h1 : compute_oi_leverage_score
        [⟨none, "binance", 1000, some 0.01, some 1.1, some 2000⟩,
         ⟨none, "binance", 1200, some 0.02, some 1.2, some 2500⟩]
        = npClip
            (50 + 0.2 * (if (1000 : ℚ) = 0 then 0 else (((1200 : ℚ) - 1000) / 1000) * 100)
              + 0.3 * (0.02 * 100) + 0.1 * (if (1.2 : ℚ) = 0 then 0 else ((1.2 : ℚ) - 1) * 100))
            0 100 := rfl
    rw [h1, if_neg (by norm_num : ¬ (1000 : ℚ) = 0), if_neg (by norm_num : ¬ (1.2 : ℚ) = 0)]
    have hx : (50 : ℚ) + 0.2 * ((((1200 : ℚ) - 1000) / 1000) * 100)
        + 0.3 * (0.02 * 100) + 0.1 * (((1.2 : ℚ) - 1) * 100) = 56.6 := by norm_num
    rw [hx, npClip_eq_of 56.6 0 100 (by norm_num) (by norm_num)]

/-- C7: `compute_manipulation_hint` stores the looked-up depth imbalance
(default 0 when the key is absent), flags a rapid wall change exactly when
`|depth_imbalance| > 0.5`, sets `risk_score` to
`clamp(0.5*|depth_imbalance| + (0.5 if volume_spike), 0, 1)`, and picks the
note by priority: wall change and spike give "Depth skew + spike", wall
change alone gives "Skewed depth", and otherwise — even with a volume spike
— the note stays "Calm". -/
theorem compute_manipulation_hint_spec (stats : List (String × ℚ)) (spike : Bool) :
    (compute_manipulation_hint stats spike).depth_imbalance
        = (stats.lookup "depth_imbalance").getD 0
    ∧ (compute_manipulation_hint stats spike).rapid_wall_change
        = decide (0.5 < |(stats.lookup "depth_imbalance").getD 0|)
    ∧ (compute_manipulation_hint stats spike).risk_score
        = npClip (0.5 * |(stats.lookup "depth_imbalance").getD 0|
            + (if spike then 0.5 else 0)) 0 1
    ∧ (compute_manipulation_hint [] spike).depth_imbalance = 0
    ∧ ((compute_manipulation_hint stats spike).rapid_wall_change = true → spike = true →
        (compute_manipulation_hint stats spike).note = "Depth skew + spike")
    ∧ ((compute_manipulation_hint stats spike).rapid_wall_change = true → spike = false →
        (compute_manipulation_hint stats spike).note = "Skewed depth")
    ∧ ((compute_manipulation_hint stats spike).rapid_wall_change = false →
        (compute_manipulation_hint stats spike).note = "Calm") := by
  refine ⟨rfl, rfl, rfl, rfl, ?_, ?_, ?_⟩
  · intro h hs
    simp only [compute_manipulation_hint] at h ⊢
    simp [h, hs]
  · intro h hs
    simp only [compute_manipulation_hint] at h ⊢
    simp [h, hs]
  · intro h
    simp only [compute_manipulation_hint] at h ⊢
    simp [h]

/-- Witness for C7: a 0.6 imbalance with a spike notes "Depth skew + spike",
without a spike "Skewed depth"; a 0.2 imbalance stays "Calm" even with a
spike. -/
theorem compute_manipulation_hint_spec_witness :
    (compute_manipulation_hint [("depth_imbalance", (0.6 : ℚ))] true).note
        = "Depth skew + spike"
    ∧ (compute_manipulation_hint [("depth_imbalance", (0.6 : ℚ))] false).note
        = "Skewed depth"
    ∧ (compute_manipulation_hint [("depth_imbalance", (0.2 : ℚ))] true).note = "Calm" :=
  ⟨(compute_manipulation_hint_spec [("depth_imbalance", (0.6 : ℚ))] true).2.2.2.2.1
      (by norm_num [compute_manipulation_hint, abs_of_nonneg]) rfl,
   (compute_manipulation_hint_spec [("depth_imbalance", (0.6 : ℚ))] false).2.2.2.2.2.1
      (by norm_num [compute_manipulation_hint, abs_of_nonneg]) rfl,
   (compute_manipulation_hint_spec [("depth_imbalance", (0.2 : ℚ))] true).2.2.2.2.2.2
      (by norm_num [compute_manipulation_hint, abs_of_nonneg])⟩

/-- C8: on a non-empty event list the regulatory score is
`clamp(50 + (support - threat)*50, 0, 100)`, where `threat` and `support`
average `e.get(key, 0)` over the events; an event lacking both keys
contributes 0 to both means, so a single such event scores the neutral
midpoint 50. -/
theorem compute_regulatory_score_formula :
    (∀ (e : List (String × ℚ)) (es : List (List (String × ℚ))),
      compute_regulatory_score (e :: es) =
        npClip
          (50 +
            (listMean ((e :: es).map fun x => (x.lookup "regulatory_support").getD 0) -
             listMean ((e :: es).map fun x => (x.lookup "regulatory_threat").getD 0)) * 50)
          0 100)
    ∧ compute_regulatory_score [[("neutral_unclear", 1)]] = 50 := by
  constructor
  · intro e es
    simp only [compute_regulatory_score, if_neg (List.cons_ne_nil e es)]
  · have h1 : compute_regulatory_score [[("neutral_unclear", 1)]]
        = npClip (50 + (listMean [0] - listMean [0]) * 50) 0 100 := rfl
    have hx : (50 : ℚ) + (listMean [0] - listMean [0]) * 50 = 50 := by
      simp [listMean]
    rw [h1, hx, npClip_eq_of 50 0 100 (by norm_num) (by norm_num)]

/-- C9: feeding the `zscore` stored on a `VolumeSignal` or `FlowSignal` back
through `classify_regime` with the default thresholds ±0.8 reproduces the
stored `regime` field, for every input series (empty or not). -/
theorem signal_regime_roundtrip (sq : ℚ → ℚ) (volumes net_flows : List ℚ) :
    classify_regime (compute_volume_signal sq volumes).zscore (-0.8) 0.8
        = (compute_volume_signal sq volumes).regime
    ∧ classify_regime (compute_flow_signal sq net_flows).zscore (-0.8) 0.8
        = (compute_flow_signal sq net_flows).regime := by
  constructor
  · cases hv : volumes.getLast? with
    | none =>
        simp only [compute_volume_signal, hv]
        unfold classify_regime
        rw [if_neg (by norm_num), if_neg (by norm_num)]
    | some a => simp only [compute_volume_signal, hv]
  · cases hf : net_flows.getLast? with
    | none =>
        simp only [compute_flow_signal, hf]
        unfold classify_regime
        rw [if_neg (by norm_num), if_neg (by norm_num)]
    | some a => simp only [compute_flow_signal, hf]

/-- C10: an explicitly supplied empty weights dict is falsy, so
`weights or defaults` silently substitutes the default weights: the call
returns exactly the no-argument result, and in particular succeeds (no
missing-key failure). -/
theorem aggregate_scores_empty_weights (f o v m r : ℚ) :
    aggregate_scores f o v m r (some []) = aggregate_scores f o v m r none
    ∧ (aggregate_scores f o v m r (some [])).isSome = true :=
  ⟨rfl, rfl⟩

/-- C4: a series containing a non-numeric value makes `compute_zscore`
raise numpy's `TypeError`, not the `InvalidInputError` the specification
prescribes — no `InvalidInputError` class exists in the repository, and
every outcome of the function is either a numeric result or a `TypeError`. -/
theorem compute_zscore_dyn_raises_type_error :
    compute_zscore_dyn (fun q => q) [PyVal.num 1, PyVal.str "x"]
        = Except.error PyError.typeError
    ∧ (∀ (sq : ℚ → ℚ) (series : List PyVal),
        compute_zscore_dyn sq series = Except.error PyError.typeError
        ∨ ∃ q : ℚ, compute_zscore_dyn sq series = Except.ok q) := by
  constructor
  · rfl
  · intro sq series
    unfold compute_zscore_dyn
    split_ifs
    · exact Or.inr ⟨0, rfl⟩
    · exact Or.inr ⟨_, rfl⟩
    · exact Or.inl rfl
